import Mathlib

/-!
# Verification of the PUIUX agent-teams orchestrator control plane

Shallow embedding of the orchestrator core (`src/unnamed/part_001`,
lines 1500-3486): the gate policy engine (`GateChecker`), the budget
ledger (`Orchestrator.checkBudget`), the artifact integrity checker
(`ArtifactChecker.checkArtifacts` plus the post-check in
`Orchestrator.executeAgent`), the consolidator
(`Orchestrator.executeCoordinatorLogic`), the per-stage result
aggregation (`Orchestrator.consolidateResults`) and the top-level driver
control flow (`Orchestrator.executeStage` / `main`).

JavaScript values that gates may hold are modelled by `JsVal` with JS
truthiness; money amounts (USD floats in the source) are modelled as
exact rationals; file-system reads are modelled by explicit functions
passed as parameters (existence predicates and parsed-content lookups).
-/

namespace Puiux

/-- A JSON-ish JavaScript value as stored in a gates record.  `undef`
models an absent property (`gates?.[k]` of a missing key). -/
inductive JsVal where
  | undef
  | nullv
  | bool (b : Bool)
  | num (n : Int)
  | str (s : String)
deriving DecidableEq, Repr

/-- JavaScript truthiness of a `JsVal` (`!gates?.[k]` tests falsiness):
`undefined`, `null`, `false`, `0` and the empty string are falsy. -/
def JsVal.truthy : JsVal → Bool
  | .undef => false
  | .nullv => false
  | .bool b => b
  | .num n => n != 0
  | .str s => s != ""

/-- A client gates record: a flat JS object, modelled as a total map
from property name to `JsVal` (`JsVal.undef` for absent keys). -/
def GatesRecord := String → JsVal

/-- JavaScript `String.prototype.toUpperCase` (ASCII range), modelled
character-wise so that it evaluates in the kernel. -/
def jsToUpper (s : String) : String := String.mk (s.data.map Char.toUpper)

/-- JavaScript `String.prototype.trim`: strip leading and trailing
whitespace. -/
def jsTrim (s : String) : String :=
  String.mk (((s.data.dropWhile Char.isWhitespace).reverse.dropWhile
    Char.isWhitespace).reverse)

/-- Does the second list occur at the head of the first? -/
def charsStartWith : List Char → List Char → Bool
  | [], _ => true
  | _ :: _, [] => false
  | p :: ps, c :: cs => p == c && charsStartWith ps cs

/-- JavaScript `String.prototype.startsWith`. -/
def strStartsWith (s pat : String) : Bool := charsStartWith pat.data s.data

/-- Model of `GateChecker.normalizeStage` (line 1718):
`String(stage || '').toUpperCase().trim()`. -/
def normalizeStage (stage : String) : String :=
  jsTrim (jsToUpper stage)

/-- The list `GATE_POLICY.presales.allow` (line 1528). -/
def presalesAllow : List String := ["PS0", "PS1", "PS2", "PS3", "PS4"]

/-- The list `GATE_POLICY.presales.require_contract` (line 1530). -/
def presalesRequireContract : List String := ["PS5"]

/-- The production stage token list (lines 1538 and 1730). -/
def productionTokens : List String := ["DEPLOY", "PROD", "PRODUCTION", "RELEASE"]

/-- Model of `GateChecker.stageFamily` (lines 1725-1733): prefix-based
classification of a stage token into a family. -/
def stageFamily (stage : String) : String :=
  if strStartsWith (normalizeStage stage) "PS" then "presales"
  else if strStartsWith (normalizeStage stage) "S" then "delivery"
  else if productionTokens.contains (normalizeStage stage) then "production"
  else "unknown"

/-- The decision record produced by `GateChecker.requireGates`
(lines 1738-1751).  A passing decision carries no `missing` field in the
source; that absence is modelled by the empty list. -/
structure GateDecision where
  passed : Bool
  reason : Option String := none
  missing : List String := []
  commercial_message : Option String := none
deriving DecidableEq, Repr

/-- Model of `GateChecker.getCommercialMessage` (lines 1756-1765). -/
def getCommercialMessage (missingGates : List String) : String :=
  String.intercalate "\n" (missingGates.map (fun gate =>
    if gate = "payment_verified" then "يرجى إتمام الدفع أولاً. تواصل مع قسم المالية."
    else if gate = "dns_verified" then "يرجى توثيق النطاق أولاً. تواصل مع قسم التقنية."
    else if gate = "contract_signed" then "يرجى توقيع العقد أولاً. تواصل مع قسم المبيعات."
    else if gate = "ssl_verified" then "يرجى تفعيل شهادة SSL أولاً. تواصل مع قسم التقنية."
    else "Missing: " ++ gate))

/-- Model of `GateChecker.requireGates` (lines 1738-1751): a required key is
missing when its value in the record is falsy. -/
def requireGates (gates : GatesRecord) (requiredKeys : List String) : GateDecision :=
  if ((requiredKeys.filter (fun k => !(gates k).truthy)).length > 0) then
    { passed := false,
      reason := some ("⛔ لا يمكن تشغيل المرحلة. البوابات المطلوبة: "
        ++ String.intercalate ", " (requiredKeys.filter (fun k => !(gates k).truthy))),
      missing := requiredKeys.filter (fun k => !(gates k).truthy),
      commercial_message :=
        some (getCommercialMessage (requiredKeys.filter (fun k => !(gates k).truthy))) }
  else
    { passed := true }

/-- The policy dispatch inside `GateChecker.checkGates`
(lines 1785-1805): the `decision` value after the family `if` chain,
starting from the default `{ passed: true }`. -/
def checkGatesDecision (stage : String) (gates : GatesRecord) : GateDecision :=
  if stageFamily (normalizeStage stage) = "presales" then
    (if presalesAllow.contains (normalizeStage stage) then
      { passed := true, reason := some "Presales stage - always allowed" }
    else if presalesRequireContract.contains (normalizeStage stage) then
      requireGates gates ["contract_signed"]
    else { passed := true })
  else if stageFamily (normalizeStage stage) = "delivery" then
    requireGates gates ["payment_verified"]
  else if stageFamily (normalizeStage stage) = "production" then
    requireGates gates ["payment_verified", "dns_verified", "ssl_verified"]
  else { passed := true }

/-- The record returned by `GateChecker.checkGates` (lines 1821-1826):
the decision spread together with the normalized stage and the family.
The `gates_state` field, which merely echoes the loaded gates record, is
carried as the input itself by callers and omitted here. -/
structure GateResult where
  passed : Bool
  reason : Option String
  missing : List String
  commercial_message : Option String
  stage : String
  family : String

/-- Model of `GateChecker.checkGates` (lines 1770-1827), with the gates record
(the result of `loadGates`) passed in explicitly. -/
def checkGates (stage : String) (gates : GatesRecord) : GateResult :=
  { passed := (checkGatesDecision stage gates).passed,
    reason := (checkGatesDecision stage gates).reason,
    missing := (checkGatesDecision stage gates).missing,
    commercial_message := (checkGatesDecision stage gates).commercial_message,
    stage := normalizeStage stage,
    family := stageFamily (normalizeStage stage) }

/-- The list of gate flags the policy requires for a stage token,
read off `GATE_POLICY` (lines 1525-1540) by the same dispatch that
`checkGates` performs: nothing for allowed presales stages and unknown
families, the contract flag for the terminal presales stage, payment
for delivery, and payment+dns+ssl for production. -/
def requiredKeysFor (stage : String) : List String :=
  if stageFamily (normalizeStage stage) = "presales" then
    (if presalesAllow.contains (normalizeStage stage) then []
    else if presalesRequireContract.contains (normalizeStage stage) then
      ["contract_signed"]
    else [])
  else if stageFamily (normalizeStage stage) = "delivery" then
    ["payment_verified"]
  else if stageFamily (normalizeStage stage) = "production" then
    ["payment_verified", "dns_verified", "ssl_verified"]
  else []

lemma requireGates_missing (gates : GatesRecord) (ks : List String) :
    (requireGates gates ks).missing = ks.filter (fun k => !(gates k).truthy) := by
  unfold requireGates
  split
  · rfl
  · next h =>
    have hz : (ks.filter (fun k => !(gates k).truthy)).length = 0 :=
      Nat.eq_zero_of_not_pos h
    simp [List.length_eq_zero.mp hz]

lemma requireGates_passed (gates : GatesRecord) (ks : List String) :
    (requireGates gates ks).passed = ks.all (fun k => (gates k).truthy) := by
  unfold requireGates
  split
  · next h =>
    rcases List.exists_mem_of_length_pos h with ⟨k, hk⟩
    have hmem := List.mem_filter.mp hk
    have hna : ks.all (fun k => (gates k).truthy) ≠ true := by
      intro hall
      have := List.all_eq_true.mp hall k hmem.1
      simp [this] at hmem
    simp [Bool.eq_false_iff.mpr hna]
  · next h =>
    have hz : (ks.filter (fun k => !(gates k).truthy)).length = 0 :=
      Nat.eq_zero_of_not_pos h
    have hnil := List.length_eq_zero.mp hz
    have hall : ks.all (fun k => (gates k).truthy) = true := by
      simp only [List.all_eq_true]
      intro k hk
      by_contra hbad
      have : k ∈ ks.filter (fun k => !(gates k).truthy) :=
        List.mem_filter.mpr ⟨hk, by simp [Bool.not_eq_true] at hbad ⊢; exact hbad⟩
      simp [hnil] at this
    simp [hall]

lemma checkGates_missing_eq (s : String) (gates : GatesRecord) :
    (checkGates s gates).missing
      = (requiredKeysFor s).filter (fun k => !(gates k).truthy) := by
  show (checkGatesDecision s gates).missing = _
  unfold checkGatesDecision requiredKeysFor
  by_cases h1 : stageFamily (normalizeStage s) = "presales"
  · simp only [h1, if_true]
    by_cases h2 : normalizeStage s ∈ presalesAllow
    · simp [h2]
    · by_cases h3 : normalizeStage s ∈ presalesRequireContract
      · simp [h2, h3, requireGates_missing]
      · simp [h2, h3]
  · by_cases h2 : stageFamily (normalizeStage s) = "delivery"
    · simp [h1, h2, requireGates_missing]
    · by_cases h3 : stageFamily (normalizeStage s) = "production"
      · simp [h1, h2, h3, requireGates_missing]
      · simp [h1, h2, h3]

lemma checkGates_passed_eq (s : String) (gates : GatesRecord) :
    (checkGates s gates).passed
      = (requiredKeysFor s).all (fun k => (gates k).truthy) := by
  show (checkGatesDecision s gates).passed = _
  unfold checkGatesDecision requiredKeysFor
  by_cases h1 : stageFamily (normalizeStage s) = "presales"
  · simp only [h1, if_true]
    by_cases h2 : normalizeStage s ∈ presalesAllow
    · simp [h2]
    · by_cases h3 : normalizeStage s ∈ presalesRequireContract
      · simp [h2, h3, requireGates_passed]
      · simp [h2, h3]
  · by_cases h2 : stageFamily (normalizeStage s) = "delivery"
    · simp [h1, h2, requireGates_passed]
    · by_cases h3 : stageFamily (normalizeStage s) = "production"
      · simp [h1, h2, h3, requireGates_passed]
      · simp [h1, h2, h3]

/-- A concrete gates record used to instantiate gate theorems: the
contract is signed (a truthy non-boolean string), everything else is a
falsy number. -/
def gatesSampleA : GatesRecord :=
  fun k => if k = "contract_signed" then JsVal.str "signed" else JsVal.num 0

/-- A concrete gates record with a truthy string, a falsy number and
absent keys, exercising JS truthiness. -/
def gatesSampleB : GatesRecord :=
  fun k =>
    if k = "payment_verified" then JsVal.str "yes"
    else if k = "dns_verified" then JsVal.num 0
    else JsVal.undef

/-- C1: `GateChecker.checkGates` decides access by stage family:
presales stages PS0-PS4 are always allowed; PS5 is allowed iff
`contract_signed` is truthy; every delivery-family stage is allowed iff
`payment_verified` is truthy; every production-family stage is allowed
iff `payment_verified`, `dns_verified` and `ssl_verified` are all
truthy; and the returned `missing` field is always exactly the list of
required gate flags whose value is not set (falsy) in the gates
record. -/
theorem claim_C1_gate_policy (s : String) (gates : GatesRecord) :
    ((checkGates s gates).missing
        = (requiredKeysFor s).filter (fun k => !(gates k).truthy))
    ∧ ((checkGates s gates).passed
        = (requiredKeysFor s).all (fun k => (gates k).truthy))
    ∧ (∀ p ∈ presalesAllow, (checkGates p gates).passed = true)
    ∧ ((checkGates "PS5" gates).passed = (gates "contract_signed").truthy)
    ∧ (stageFamily (normalizeStage s) = "delivery" →
        requiredKeysFor s = ["payment_verified"]
        ∧ (checkGates s gates).passed = (gates "payment_verified").truthy)
    ∧ (stageFamily (normalizeStage s) = "production" →
        requiredKeysFor s = ["payment_verified", "dns_verified", "ssl_verified"]
        ∧ (checkGates s gates).passed
            = ((gates "payment_verified").truthy && (gates "dns_verified").truthy
                && (gates "ssl_verified").truthy)) := by
  refine ⟨checkGates_missing_eq s gates, checkGates_passed_eq s gates, ?_, ?_, ?_, ?_⟩
  · intro p hp
    simp only [presalesAllow, List.mem_cons, List.not_mem_nil, or_false] at hp
    rcases hp with h | h | h | h | h <;> subst h <;> (rw [checkGates_passed_eq]; rfl)
  · rw [checkGates_passed_eq]
    have hr : requiredKeysFor "PS5" = ["contract_signed"] := rfl
    rw [hr]
    simp
  · intro h
    have hr : requiredKeysFor s = ["payment_verified"] := by
      unfold requiredKeysFor
      rw [h]
      rfl
    refine ⟨hr, ?_⟩
    rw [checkGates_passed_eq, hr]
    simp
  · intro h
    have hr : requiredKeysFor s = ["payment_verified", "dns_verified", "ssl_verified"] := by
      unfold requiredKeysFor
      rw [h]
      rfl
    refine ⟨hr, ?_⟩
    rw [checkGates_passed_eq, hr]
    simp [List.all_cons, List.all_nil, Bool.and_assoc]

/-- Witness for C1 at concrete inputs: presales stage PS3 passes, PS5
passes with a signed contract, and the delivery stage S2 is denied with
`missing = [payment_verified]` when payment is falsy. -/
theorem claim_C1_gate_policy_witness :
    (checkGates "PS3" gatesSampleA).passed = true
    ∧ (checkGates "PS5" gatesSampleA).passed = true
    ∧ (checkGates "S2" gatesSampleA).missing = ["payment_verified"]
    ∧ (checkGates "S2" gatesSampleA).passed = false := by
  refine ⟨?_, ?_, ?_, ?_⟩
  · exact (claim_C1_gate_policy "PS3" gatesSampleA).2.2.1 "PS3" (by simp [presalesAllow])
  · exact ((claim_C1_gate_policy "PS5" gatesSampleA).2.2.2.1).trans (by rfl)
  · exact ((claim_C1_gate_policy "S2" gatesSampleA).1).trans (by rfl)
  · exact (((claim_C1_gate_policy "S2" gatesSampleA).2.2.2.2.1 (by rfl)).2).trans (by rfl)

/-- C9: a stage token matching no known family (not a `PS*` token, not
an `S*` token, not one of the production tokens) classifies as
`unknown`, and `checkGates` then passes it with no missing gates, for
every gates record (fail-open). -/
theorem claim_C9_unknown_fail_open :
    (∀ t, stageFamily t = "unknown"
        ↔ (strStartsWith (normalizeStage t) "PS" = false
            ∧ strStartsWith (normalizeStage t) "S" = false
            ∧ productionTokens.contains (normalizeStage t) = false))
    ∧ (∀ (s : String) (gates : GatesRecord),
        stageFamily (normalizeStage s) = "unknown" →
        (checkGates s gates).passed = true ∧ (checkGates s gates).missing = []) := by
  constructor
  · intro t
    unfold stageFamily
    by_cases h1 : strStartsWith (normalizeStage t) "PS"
    · simp [h1]
    · by_cases h2 : strStartsWith (normalizeStage t) "S"
      · simp [h1, h2]
      · by_cases h3 : productionTokens.contains (normalizeStage t)
        · simp [h1, h2, h3]
        · simp [h1, h2, h3]
  · intro s gates h
    have hr : requiredKeysFor s = [] := by
      unfold requiredKeysFor
      rw [h]
      rfl
    constructor
    · rw [checkGates_passed_eq, hr]
      rfl
    · rw [checkGates_missing_eq, hr]
      rfl

/-- Witness for C9: the token `MAINTENANCE` belongs to no family and is
allowed with no missing gates even though every gate is closed. -/
theorem claim_C9_unknown_fail_open_witness :
    (checkGates "MAINTENANCE" gatesSampleB).passed = true
    ∧ (checkGates "MAINTENANCE" gatesSampleB).missing = [] :=
  claim_C9_unknown_fail_open.2 "MAINTENANCE" gatesSampleB (by rfl)

/-- C10: `GateChecker.requireGates` reports a required gate as missing
precisely when its value in the record is falsy; an absent flag
(`undefined`) or an explicit `false` is treated identically, any truthy
value satisfies the gate, and the check passes exactly when the missing
list is empty. -/
theorem claim_C10_falsy_gates (gates : GatesRecord) (ks : List String) (k : String) :
    (k ∈ (requireGates gates ks).missing ↔ (k ∈ ks ∧ (gates k).truthy = false))
    ∧ ((requireGates gates ks).passed = true ↔ (requireGates gates ks).missing = [])
    ∧ ((gates k).truthy = true → k ∉ (requireGates gates ks).missing)
    ∧ (gates k = JsVal.undef → (gates k).truthy = false)
    ∧ (gates k = JsVal.bool false → (gates k).truthy = false) := by
  have hmem : k ∈ (requireGates gates ks).missing ↔ (k ∈ ks ∧ (gates k).truthy = false) := by
    rw [requireGates_missing]
    simp [List.mem_filter]
  refine ⟨hmem, ?_, ?_, ?_, ?_⟩
  · rw [requireGates_passed, requireGates_missing]
    simp only [List.all_eq_true, List.filter_eq_nil_iff, Bool.not_eq_eq_eq_not, Bool.not_true]
    constructor
    · intro h x hx
      simp [h x hx]
    · intro h x hx
      have := h x hx
      simpa using this
  · intro ht hk
    have := (hmem.mp hk).2
    rw [ht] at this
    cases this
  · intro h
    rw [h]
    rfl
  · intro h
    rw [h]
    rfl

/-- Witness for C10 at a concrete partial gates record: the falsy
number 0 and absent flags are reported missing, the truthy non-boolean
string is not, and the check is denied. -/
theorem claim_C10_falsy_gates_witness :
    ("dns_verified"
        ∈ (requireGates gatesSampleB
            ["payment_verified", "dns_verified", "ssl_verified"]).missing)
    ∧ ("payment_verified"
        ∉ (requireGates gatesSampleB
            ["payment_verified", "dns_verified", "ssl_verified"]).missing)
    ∧ (requireGates gatesSampleB
        ["payment_verified", "dns_verified", "ssl_verified"]).passed = false := by
  refine ⟨?_, ?_, ?_⟩
  · exact (claim_C10_falsy_gates gatesSampleB
      ["payment_verified", "dns_verified", "ssl_verified"] "dns_verified").1.mpr
      ⟨by simp, by rfl⟩
  · exact (claim_C10_falsy_gates gatesSampleB
      ["payment_verified", "dns_verified", "ssl_verified"] "payment_verified").2.2.1 (by rfl)
  · have hne : (requireGates gatesSampleB
        ["payment_verified", "dns_verified", "ssl_verified"]).passed ≠ true := by
      intro hp
      have hnil := (claim_C10_falsy_gates gatesSampleB
        ["payment_verified", "dns_verified", "ssl_verified"] "dns_verified").2.1.mp hp
      have hin := (claim_C10_falsy_gates gatesSampleB
        ["payment_verified", "dns_verified", "ssl_verified"] "dns_verified").1.mpr
        ⟨by simp, by rfl⟩
      rw [hnil] at hin
      simp at hin
    exact Bool.eq_false_iff.mpr hne

/-! ## Budget ledger (`Orchestrator.checkBudget`, lines 2006-2061)

Costs are USD floats in the source; they are modelled as exact
rationals.  The scan of `outputs/{client}/{stage}/run.json` files is
modelled by a list of `(stageDir, cost?)` pairs: one entry per stage
directory, with `none` when `run.json` is unreadable or carries no
`llm_usage.total_cost_usd` field. -/

/-- The record `CONFIG.budgets` (lines 1514-1518). -/
structure Budgets where
  per_run : ℚ
  per_stage : ℚ
  per_client : ℚ
deriving DecidableEq, Repr

/-- The configured ceilings: $2 per run, $10 per stage, $50 per
client. -/
def cfgBudgets : Budgets := { per_run := 2, per_stage := 10, per_client := 50 }

/-- The record returned by `checkBudget`; fields that appear only on
one branch in the source are `Option`s.  The Arabic reason strings
(which interpolate `toFixed(2)` amounts) are not modelled. -/
structure BudgetCheck where
  withinBudget : Bool
  spent : ℚ
  limit : Option ℚ := none
  remaining : Option ℚ := none
deriving DecidableEq, Repr

/-- The `totalSpent` accumulation of `checkBudget` (lines 2010-2029):
every stage directory whose `run.json` has a truthy
`llm_usage.total_cost_usd` contributes its cost. -/
def totalSpentOf (runs : List (String × Option ℚ)) : ℚ :=
  runs.foldl
    (fun acc r =>
      match r.2 with
      | some c => if c ≠ 0 then acc + c else acc
      | none => acc)
    0

/-- The `stageSpent` accumulation of `checkBudget` (lines 2010-2029):
only directories whose name equals the stage under check contribute. -/
def stageSpentOf (runs : List (String × Option ℚ)) (stage : String) : ℚ :=
  runs.foldl
    (fun acc r =>
      match r.2 with
      | some c => if c ≠ 0 ∧ r.1 = stage then acc + c else acc
      | none => acc)
    0

/-- Model of `Orchestrator.checkBudget` (lines 2006-2061): recompute the spent
totals from the persisted run manifests, then reject when the client
total reaches `per_client` or the stage total reaches `per_stage`.  The
configured `per_run` ceiling appears nowhere in this function. -/
def checkBudget (b : Budgets) (runs : List (String × Option ℚ)) (stage : String) :
    BudgetCheck :=
  if totalSpentOf runs ≥ b.per_client then
    { withinBudget := false, spent := totalSpentOf runs, limit := some b.per_client }
  else if stageSpentOf runs stage ≥ b.per_stage then
    { withinBudget := false, spent := stageSpentOf runs stage, limit := some b.per_stage }
  else
    { withinBudget := true, spent := totalSpentOf runs,
      remaining := some (b.per_client - totalSpentOf runs) }

/-- C2 counterexample: `checkBudget` never consults the per-run
ceiling.  With the configured budgets and a single persisted run of
cost $3 — at or above the $2 per-run ceiling — the check still returns
`withinBudget = true`, so the claim that all three ceilings are
compared (rejecting whenever a relevant total meets or exceeds one) is
false on the code. -/
theorem claim_C2_counterexample :
    (checkBudget cfgBudgets [("S1", some 3)] "S1").withinBudget = true
    ∧ ((3 : ℚ) ≥ cfgBudgets.per_run) := by
  constructor
  · show (checkBudget cfgBudgets [("S1", some 3)] "S1").withinBudget = true
    unfold checkBudget
    norm_num [totalSpentOf, stageSpentOf, cfgBudgets]
  · show (3 : ℚ) ≥ 2
    norm_num

/-- C2 (amended): `checkBudget` recomputes cumulative spend from the
persisted run manifests and compares it against the per-stage and
per-client-total ceilings only, rejecting exactly when the client total
meets or exceeds `per_client` or the stage total meets or exceeds
`per_stage` (so the boundary `spent = limit` rejects); the configured
per-run ceiling is never consulted. -/
theorem claim_C2_budget_ceilings (b : Budgets) (runs : List (String × Option ℚ))
    (stage : String) :
    ((checkBudget b runs stage).withinBudget = false
        ↔ (totalSpentOf runs ≥ b.per_client ∨ stageSpentOf runs stage ≥ b.per_stage))
    ∧ (totalSpentOf runs = b.per_client →
        (checkBudget b runs stage).withinBudget = false)
    ∧ (stageSpentOf runs stage = b.per_stage →
        (checkBudget b runs stage).withinBudget = false)
    ∧ (∀ x : ℚ, checkBudget { b with per_run := x } runs stage = checkBudget b runs stage) := by
  have hiff : (checkBudget b runs stage).withinBudget = false
      ↔ (totalSpentOf runs ≥ b.per_client ∨ stageSpentOf runs stage ≥ b.per_stage) := by
    unfold checkBudget
    by_cases h1 : totalSpentOf runs ≥ b.per_client
    · simp [h1]
    · by_cases h2 : stageSpentOf runs stage ≥ b.per_stage
      · simp [h1, h2]
      · simp [h1, h2]
  refine ⟨hiff, ?_, ?_, ?_⟩
  · intro h
    exact hiff.mpr (Or.inl (le_of_eq h.symm))
  · intro h
    exact hiff.mpr (Or.inr (le_of_eq h.symm))
  · intro x
    unfold checkBudget
    rfl

/-- Witness for the amended C2 at the exact per-stage boundary: a
stage that has already spent exactly $10 is rejected. -/
theorem claim_C2_budget_ceilings_witness :
    (checkBudget cfgBudgets [("S1", some 10)] "S1").withinBudget = false :=
  (claim_C2_budget_ceilings cfgBudgets [("S1", some 10)] "S1").2.2.1 (by norm_num [stageSpentOf, cfgBudgets])

/-! ## Consolidator (`Orchestrator.executeCoordinatorLogic`, lines 2283-2576)

The consolidator re-reads the three expected sibling agent outputs from
disk.  That read is modelled by `siblings : String → Option AgentOutput`
(`none` = file absent or unparsable), and artifact existence by
`onDisk : String → Bool` on the deliverable's file name within the
stage output directory.  The conflict-detection rules (lines 2397-2474)
derive a conflict list from the client brief and from deliverable file
contents; that list enters the model as an explicit input, exactly as
it feeds the action-item generation (lines 2479-2522). -/

/-- Replace the first occurrence of a pattern inside a character list
(JavaScript `String.prototype.replace` with a string pattern). -/
def replaceOnceChars (pat repl : List Char) : List Char → List Char
  | [] => []
  | c :: cs =>
    if charsStartWith pat (c :: cs) then repl ++ (c :: cs).drop pat.length
    else c :: replaceOnceChars pat repl cs

/-- JavaScript `s.replace(pat, repl)` for string patterns (first
occurrence only). -/
def strReplaceOnce (s pat repl : String) : String :=
  String.mk (replaceOnceChars pat.data repl.data s.data)

/-- JavaScript `String(n).padStart(w, c)`. -/
def padStart (w : Nat) (c : Char) (s : String) : String :=
  if s.length ≥ w then s else String.mk (List.replicate (w - s.length) c) ++ s

/-- An issue record as read from a sibling agent output (or written by
the consolidator itself); optional fields default like absent JS
properties. -/
structure CoordIssue where
  severity : String := ""
  description : String := ""
  recommendation : Option String := none
  missing_inputs : List String := []
  missing : List String := []
deriving DecidableEq, Repr

/-- The `result` object of one sibling agent output
(`data.result?.deliverables || {}` and friends, lines 2339-2392). -/
structure AgentOutput where
  deliverables : List (String × String) := []
  decisions : List String := []
  issues : List CoordIssue := []
  next_steps : List String := []
deriving DecidableEq, Repr

/-- One entry of `allDeliverables` (lines 2356-2361).  The source field
`exists` is called `existsOnDisk` here. -/
structure DelivEntry where
  agent : String
  key : String
  file : String
  existsOnDisk : Bool
deriving DecidableEq, Repr

/-- A decision tagged with its agent (lines 2379-2381). -/
structure TaggedDecision where
  agent : String
  decision : String
deriving DecidableEq, Repr

/-- An issue tagged with its agent (lines 2384-2386). -/
structure TaggedIssue where
  agent : String
  issue : CoordIssue
deriving DecidableEq, Repr

/-- A conflict as produced by the detection rules (lines 2397-2474);
only the fields the action-item generation reads are carried.  The
source field `type` is called `ctype` here. -/
structure Conflict where
  ctype : String
  severity : String
  description : String
  agents : List String := []
  file : Option String := none
  recommendation : String
deriving DecidableEq, Repr

/-- An action item (lines 2484-2521). -/
structure ActionItem where
  id : String
  owner : String
  severity : String
  title : String
  source : String
  evidence : String
  next_step : String
deriving DecidableEq, Repr

/-- The stage-scoped action-item identifier
`` `${stage}-AI-${String(actionId).padStart(3, '0')}` ``. -/
def mkActionId (stage : String) (n : Nat) : String :=
  stage ++ "-AI-" ++ padStart 3 '0' (toString n)

/-- The action item pushed for one missing deliverable
(lines 2483-2494). -/
def mkMissingActionItem (stage clientSlug : String) (n : Nat) (d : DelivEntry) :
    ActionItem :=
  { id := mkActionId stage n,
    owner := d.agent,
    severity := "high",
    title := "Create missing artifact: " ++ d.file,
    source := "coordinator",
    evidence := "deliverable " ++ d.key ++ " declared but file not found",
    next_step := "Write " ++ d.file ++ " to outputs/" ++ clientSlug ++ "/" ++ stage ++ "/" }

/-- The action item pushed for one conflict (lines 2497-2508);
`conflict.agents?.[0] || 'team'` and `conflict.file || conflict.type`
follow JS falsiness on strings. -/
def mkConflictActionItem (stage : String) (n : Nat) (c : Conflict) : ActionItem :=
  { id := mkActionId stage n,
    owner := (match c.agents with
      | [] => "team"
      | a :: _ => if a = "" then "team" else a),
    severity := c.severity,
    title := c.description,
    source := "coordinator-conflict-detection",
    evidence := (match c.file with
      | none => c.ctype
      | some f => if f = "" then c.ctype else f),
    next_step := c.recommendation }

/-- The action item pushed for one critical issue (lines 2511-2521). -/
def mkCriticalActionItem (stage : String) (n : Nat) (t : TaggedIssue) : ActionItem :=
  { id := mkActionId stage n,
    owner := t.agent,
    severity := "critical",
    title := t.issue.description,
    source := t.agent,
    evidence := (match t.issue.recommendation with
      | none => "See agent output"
      | some r => if r = "" then "See agent output" else r),
    next_step := (match t.issue.recommendation with
      | none => "Resolve critical issue"
      | some r => if r = "" then "Resolve critical issue" else r) }

/-- One `actionItems.push(...)` step together with the `actionId++`
counter increment (lines 2479-2522). -/
def pushWithId {α : Type} (mk : Nat → α → ActionItem)
    (s : List ActionItem × Nat) (x : α) : List ActionItem × Nat :=
  (s.1 ++ [mk s.2 x], s.2 + 1)

/-- Action-item generation (lines 2479-2522): one counter starting at
1 runs through the missing deliverables, then the conflicts, then the
critical issues. -/
def genActionItems (stage clientSlug : String) (missingDeliverables : List DelivEntry)
    (conflicts : List Conflict) (allIssues : List TaggedIssue) : List ActionItem :=
  ((allIssues.filter (fun t => t.issue.severity == "critical")).foldl
    (pushWithId (mkCriticalActionItem stage))
    (conflicts.foldl (pushWithId (mkConflictActionItem stage))
      (missingDeliverables.foldl (pushWithId (mkMissingActionItem stage clientSlug))
        ([], 1)))).1

/-- The three sibling files the consolidator expects (line 2290). -/
def agentFiles : List String :=
  ["designer-agent.json", "frontend-agent.json", "backend-agent.json"]

/-- The computation `filename.replace('.json', '')` (line 2340). -/
def agentNameOf (filename : String) : String := strReplaceOnce filename ".json" ""

/-- The sibling files that could not be read (lines 2294-2303). -/
def missingInputsOf (siblings : String → Option AgentOutput) : List String :=
  agentFiles.filter (fun f => (siblings f).isNone)

/-- The successfully parsed sibling outputs, in expected-file order
(lines 2294-2303). -/
def agentDataOf (siblings : String → Option AgentOutput) :
    List (String × AgentOutput) :=
  agentFiles.filterMap (fun f => (siblings f).map (fun d => (f, d)))

/-- The list `allDeliverables` (lines 2336-2363): every declared deliverable of
every sibling, with its on-disk existence. -/
def gatherDeliverables (agentData : List (String × AgentOutput))
    (onDisk : String → Bool) : List DelivEntry :=
  agentData.flatMap (fun fd => fd.2.deliverables.map (fun kv =>
    { agent := agentNameOf fd.1, key := kv.1, file := kv.2,
      existsOnDisk := onDisk kv.2 }))

/-- The list `allDecisions` (lines 2375-2381). -/
def taggedDecisionsOf (agentData : List (String × AgentOutput)) : List TaggedDecision :=
  agentData.flatMap (fun fd => fd.2.decisions.map (fun d =>
    { agent := agentNameOf fd.1, decision := d }))

/-- The list `allIssues` (lines 2383-2386). -/
def taggedIssuesOf (agentData : List (String × AgentOutput)) : List TaggedIssue :=
  agentData.flatMap (fun fd => fd.2.issues.map (fun i =>
    { agent := agentNameOf fd.1, issue := i }))

/-- The single critical issue of the short-circuit result
(lines 2320-2325). -/
def mkMissingInputsIssue (missingInputs : List String) : CoordIssue :=
  { severity := "critical",
    description := "Missing " ++ toString missingInputs.length ++ " agent output(s)",
    recommendation := some "Ensure all agents in stage completed successfully",
    missing_inputs := missingInputs }

/-- An entry of the consolidated result's `issues` list, which holds
either a consolidator-made issue object or an agent-tagged one. -/
inductive ResultIssue where
  | plain (i : CoordIssue)
  | tagged (t : TaggedIssue)
deriving DecidableEq, Repr

/-- The `consolidated` block (lines 2527-2539; zeroed variant at
lines 2312-2318). -/
structure Consolidated where
  total_deliverables : Nat
  deliverables_by_agent : List (String × Nat) := []
  total_decisions : Nat
  total_issues : Nat
  total_actions : Nat
  conflicts : Nat
  all_deliverables : List DelivEntry := []
  all_decisions : List TaggedDecision := []
  all_issues : List TaggedIssue := []
  action_items : List ActionItem := []
  conflicts_detail : List Conflict := []
deriving DecidableEq, Repr

/-- The `result` object of the consolidator's return value. -/
structure CoordResultBody where
  summary : String
  deliverables : List (String × Option String)
  consolidated : Consolidated
  decisions : List String
  issues : List ResultIssue
  next_steps : List String
deriving DecidableEq, Repr

/-- The consolidator's return value; `tokens_used` and `cost_usd` are
`null` on every path (lines 2328-2329, 2573-2574) and are omitted. -/
structure CoordResult where
  status : String
  result : CoordResultBody
deriving DecidableEq, Repr

/-- The zeroed `consolidated` block of the short-circuit result
(lines 2312-2318). -/
def zeroConsolidated : Consolidated :=
  { total_deliverables := 0
    total_decisions := 0
    total_issues := 1
    total_actions := 0
    conflicts := 0 }

/-- The short-circuit result returned when any sibling output is
missing (lines 2306-2331). -/
def blockedInputsResult (missingInputs : List String) : CoordResult :=
  { status := "blocked"
    result :=
    { summary := "Cannot consolidate - missing agent outputs"
      deliverables := []
      consolidated := zeroConsolidated
      decisions := []
      issues := [ResultIssue.plain (mkMissingInputsIssue missingInputs)]
      next_steps := [] } }

/-- The `missingDeliverables` list (line 2366). -/
def missingDelivsOf (agentData : List (String × AgentOutput))
    (onDisk : String → Bool) : List DelivEntry :=
  (gatherDeliverables agentData onDisk).filter (fun d => !d.existsOnDisk)

/-- The flag `hasCriticalIssues` (line 2542). -/
def hasCriticalIssue (agentData : List (String × AgentOutput)) : Bool :=
  (taggedIssuesOf agentData).any (fun i => i.issue.severity == "critical")

/-- The synthetic high-severity issue the consolidator emits when
deliverables are missing (lines 2565-2570). -/
def mkMissingDelivsIssue (missingDeliverables : List DelivEntry) : CoordIssue :=
  { severity := "high"
    description := toString missingDeliverables.length
      ++ " deliverables declared but files not found"
    recommendation := some "Check artifact integrity"
    missing := missingDeliverables.map (fun d => d.file) }

/-- The fixed deliverable map of the consolidated result
(lines 2550-2555); `blockers.md` only when there are issues or
conflicts. -/
def coordDeliverables (agentData : List (String × AgentOutput))
    (conflicts : List Conflict) : List (String × Option String) :=
  [("consolidated_brief", some "consolidated-brief.md"),
   ("next_actions", some "next-actions.md"),
   ("blockers",
     if (taggedIssuesOf agentData).length > 0 || conflicts.length > 0
     then some "blockers.md" else none),
   ("owners", some "owners.json")]

/-- The decision strings of the consolidated result (lines 2557-2564). -/
def coordDecisions (agentData : List (String × AgentOutput))
    (onDisk : String → Bool) (conflicts : List Conflict)
    (actionItems : List ActionItem) : List String :=
  ["Consolidated " ++ toString agentData.length ++ " agent outputs",
   "Total deliverables: " ++ toString (gatherDeliverables agentData onDisk).length
     ++ " (" ++ toString (missingDelivsOf agentData onDisk).length ++ " missing)",
   "Total decisions: " ++ toString (taggedDecisionsOf agentData).length,
   "Total issues: " ++ toString (taggedIssuesOf agentData).length,
   "Action items: " ++ toString actionItems.length,
   "Conflicts detected: " ++ toString conflicts.length]

/-- The `consolidated` block of the aggregation path
(lines 2527-2539). -/
def mainConsolidated (agentData : List (String × AgentOutput))
    (onDisk : String → Bool) (conflicts : List Conflict)
    (actionItems : List ActionItem) : Consolidated :=
  { total_deliverables := (gatherDeliverables agentData onDisk).length
    deliverables_by_agent := agentData.map (fun fd =>
      (agentNameOf fd.1, fd.2.deliverables.length))
    total_decisions := (taggedDecisionsOf agentData).length
    total_issues := (taggedIssuesOf agentData).length
    total_actions := actionItems.length
    conflicts := conflicts.length
    all_deliverables := gatherDeliverables agentData onDisk
    all_decisions := taggedDecisionsOf agentData
    all_issues := taggedIssuesOf agentData
    action_items := actionItems
    conflicts_detail := conflicts }

/-- The aggregation path of the consolidator (lines 2333-2576), taken
when every sibling output was readable. -/
def consolidateMain (stage clientSlug : String)
    (agentData : List (String × AgentOutput)) (onDisk : String → Bool)
    (conflicts : List Conflict) : CoordResult :=
  { status :=
      if hasCriticalIssue agentData || (missingDelivsOf agentData onDisk).length > 0
      then "blocked" else "success"
    result :=
    { summary := "Consolidated outputs from " ++ toString agentData.length
        ++ " agents for stage " ++ stage
      deliverables := coordDeliverables agentData conflicts
      consolidated := mainConsolidated agentData onDisk conflicts
        (genActionItems stage clientSlug (missingDelivsOf agentData onDisk)
          conflicts (taggedIssuesOf agentData))
      decisions := coordDecisions agentData onDisk conflicts
        (genActionItems stage clientSlug (missingDelivsOf agentData onDisk)
          conflicts (taggedIssuesOf agentData))
      issues :=
        if (missingDelivsOf agentData onDisk).length > 0
        then [ResultIssue.plain (mkMissingDelivsIssue (missingDelivsOf agentData onDisk))]
        else (taggedIssuesOf agentData).map ResultIssue.tagged
      next_steps := (genActionItems stage clientSlug (missingDelivsOf agentData onDisk)
        conflicts (taggedIssuesOf agentData)).map (fun a =>
          "[" ++ a.owner ++ "] " ++ a.title) } }

/-- Model of `Orchestrator.executeCoordinatorLogic` (lines 2283-2576): the
short-circuit on unreadable sibling inputs, then the aggregation
path. -/
def consolidate (stage clientSlug : String)
    (siblings : String → Option AgentOutput) (onDisk : String → Bool)
    (conflicts : List Conflict) : CoordResult :=
  if (missingInputsOf siblings).length > 0 then
    blockedInputsResult (missingInputsOf siblings)
  else
    consolidateMain stage clientSlug (agentDataOf siblings) onDisk conflicts

/-- Unrolling one `foldl` step of the counter-threading action-item
loops: the accumulated items grow by one per element and the counter by
one. -/
def idMap {α : Type} (mk : Nat → α → ActionItem) : Nat → List α → List ActionItem
  | _, [] => []
  | n, x :: xs => mk n x :: idMap mk (n + 1) xs

lemma foldl_pushWithId {α : Type} (mk : Nat → α → ActionItem) (l : List α) :
    ∀ (acc : List ActionItem) (n : Nat),
      l.foldl (pushWithId mk) (acc, n) = (acc ++ idMap mk n l, n + l.length) := by
  induction l with
  | nil => intro acc n; simp [idMap]
  | cons x xs ih =>
    intro acc n
    rw [List.foldl_cons]
    show xs.foldl (pushWithId mk) (acc ++ [mk n x], n + 1) = _
    rw [ih]
    rw [List.append_assoc, List.singleton_append]
    have hn : n + 1 + xs.length = n + (x :: xs).length := by
      simp only [List.length_cons]
      omega
    rw [hn]
    simp [idMap]

lemma genActionItems_eq (stage clientSlug : String) (m : List DelivEntry)
    (cf : List Conflict) (ai : List TaggedIssue) :
    genActionItems stage clientSlug m cf ai
      = idMap (mkMissingActionItem stage clientSlug) 1 m
        ++ idMap (mkConflictActionItem stage) (1 + m.length) cf
        ++ idMap (mkCriticalActionItem stage) (1 + m.length + cf.length)
            (ai.filter (fun t => t.issue.severity == "critical")) := by
  unfold genActionItems
  rw [foldl_pushWithId, foldl_pushWithId, foldl_pushWithId]
  simp [List.append_assoc]

/-- The identifier sequence `mkActionId stage n, mkActionId stage
(n+1), ...` of a given length. -/
def idsFrom (stage : String) (n len : Nat) : List String :=
  (List.range len).map (fun i => mkActionId stage (n + i))

lemma idsFrom_succ (stage : String) (n len : Nat) :
    idsFrom stage n (len + 1) = mkActionId stage n :: idsFrom stage (n + 1) len := by
  unfold idsFrom
  rw [List.range_succ_eq_map, List.map_cons, List.map_map]
  have hf : ((fun i => mkActionId stage (n + i)) ∘ Nat.succ)
      = (fun i => mkActionId stage (n + 1 + i)) := by
    funext i
    show mkActionId stage (n + (i + 1)) = mkActionId stage (n + 1 + i)
    congr 1
    omega
  rw [hf]
  simp

lemma idMap_ids {α : Type} (stage : String) (mk : Nat → α → ActionItem)
    (hmk : ∀ n x, (mk n x).id = mkActionId stage n) (l : List α) :
    ∀ n, (idMap mk n l).map (fun a => a.id) = idsFrom stage n l.length := by
  induction l with
  | nil => intro n; simp [idMap, idsFrom]
  | cons x xs ih =>
    intro n
    rw [show idMap mk n (x :: xs) = mk n x :: idMap mk (n + 1) xs from rfl]
    rw [List.map_cons, hmk, ih (n + 1), List.length_cons, idsFrom_succ]

lemma idsFrom_append (stage : String) (a : Nat) :
    ∀ (n b : Nat), idsFrom stage n a ++ idsFrom stage (n + a) b = idsFrom stage n (a + b) := by
  induction a with
  | zero => intro n b; simp [idsFrom]
  | succ a ih =>
    intro n b
    rw [idsFrom_succ, Nat.succ_add, idsFrom_succ]
    rw [List.cons_append]
    have : n + (a + 1) = (n + 1) + a := by omega
    rw [this, ih (n + 1) b]

/-- C6: action items are generated missing-deliverables first, then
conflicts, then critical issues, each with a counter-threaded,
stage-scoped identifier; the identifiers of the whole list are exactly
`{stage}-AI-001, {stage}-AI-002, ...` in order, so identical inputs
always produce identical identifiers, and the consolidator is a pure
function of its inputs (two runs over equal inputs agree on action
items and on the final status). -/
theorem claim_C6_action_item_determinism (stage clientSlug : String)
    (m : List DelivEntry) (cf : List Conflict) (ai : List TaggedIssue) :
    (genActionItems stage clientSlug m cf ai
       = idMap (mkMissingActionItem stage clientSlug) 1 m
         ++ idMap (mkConflictActionItem stage) (1 + m.length) cf
         ++ idMap (mkCriticalActionItem stage) (1 + m.length + cf.length)
             (ai.filter (fun t => t.issue.severity == "critical")))
    ∧ ((genActionItems stage clientSlug m cf ai).map (fun a => a.id)
       = (List.range (m.length + cf.length
            + (ai.filter (fun t => t.issue.severity == "critical")).length)).map
           (fun i => mkActionId stage (1 + i)))
    ∧ (∀ (sib1 sib2 : String → Option AgentOutput) (od1 od2 : String → Bool)
         (cf1 cf2 : List Conflict), sib1 = sib2 → od1 = od2 → cf1 = cf2 →
         (consolidate stage clientSlug sib1 od1 cf1).result.consolidated.action_items
             = (consolidate stage clientSlug sib2 od2 cf2).result.consolidated.action_items
           ∧ (consolidate stage clientSlug sib1 od1 cf1).status
             = (consolidate stage clientSlug sib2 od2 cf2).status) := by
  refine ⟨genActionItems_eq stage clientSlug m cf ai, ?_, ?_⟩
  · rw [genActionItems_eq]
    rw [List.map_append, List.map_append]
    rw [idMap_ids stage _ (fun n x => rfl), idMap_ids stage _ (fun n x => rfl),
      idMap_ids stage _ (fun n x => rfl)]
    rw [idsFrom_append]
    have h2 : (1 + m.length) + cf.length = 1 + (m.length + cf.length) := by omega
    rw [h2, idsFrom_append]
    unfold idsFrom
    rfl
  · intro sib1 sib2 od1 od2 cf1 cf2 h1 h2 h3
    subst h1; subst h2; subst h3
    exact ⟨rfl, rfl⟩

/-- A concrete missing-deliverable entry for witnesses. -/
def sampleDeliv : DelivEntry :=
  { agent := "frontend-agent", key := "component_structure",
    file := "component-structure.md", existsOnDisk := false }

/-- A concrete medium-severity conflict for witnesses. -/
def sampleConflict : Conflict :=
  { ctype := "tech_stack_mismatch", severity := "medium",
    description := "Frontend agent didn't mention preferred tech: React",
    agents := ["frontend-agent"],
    recommendation := "Verify tech stack alignment with constraints" }

/-- Witness for C6: one missing deliverable followed by one conflict
get the identifiers `S2-AI-001` and `S2-AI-002`. -/
theorem claim_C6_action_item_determinism_witness :
    (genActionItems "S2" "demo-acme" [sampleDeliv] [sampleConflict] []).map
        (fun a => a.id)
      = ["S2-AI-001", "S2-AI-002"] := by
  have h := (claim_C6_action_item_determinism "S2" "demo-acme"
    [sampleDeliv] [sampleConflict] []).2.1
  rw [h]
  rfl

/-- C3: on the aggregation path (all sibling outputs readable) the
consolidated status is `blocked` exactly when some declared deliverable
file is absent from the output directory or some collected issue has
critical severity; otherwise it is `success`, and the conflict list —
whatever its severities — never influences the status. -/
theorem claim_C3_blocked_iff (stage clientSlug : String)
    (siblings : String → Option AgentOutput) (onDisk : String → Bool)
    (conflicts : List Conflict)
    (hall : missingInputsOf siblings = []) :
    ((consolidate stage clientSlug siblings onDisk conflicts).status = "blocked"
       ↔ ((∃ d ∈ gatherDeliverables (agentDataOf siblings) onDisk,
              d.existsOnDisk = false)
           ∨ (∃ t ∈ taggedIssuesOf (agentDataOf siblings),
              t.issue.severity = "critical")))
    ∧ ((consolidate stage clientSlug siblings onDisk conflicts).status = "blocked"
       ∨ (consolidate stage clientSlug siblings onDisk conflicts).status = "success")
    ∧ (∀ cf2 : List Conflict,
        (consolidate stage clientSlug siblings onDisk conflicts).status
          = (consolidate stage clientSlug siblings onDisk cf2).status) := by
  have hred : ∀ cf : List Conflict,
      consolidate stage clientSlug siblings onDisk cf
        = consolidateMain stage clientSlug (agentDataOf siblings) onDisk cf := by
    intro cf
    unfold consolidate
    simp [hall]
  have hstat : ∀ cf : List Conflict,
      (consolidate stage clientSlug siblings onDisk cf).status
        = (if hasCriticalIssue (agentDataOf siblings)
              || (missingDelivsOf (agentDataOf siblings) onDisk).length > 0
           then "blocked" else "success") := by
    intro cf
    rw [hred cf]
    rfl
  refine ⟨?_, ?_, ?_⟩
  · rw [hstat conflicts]
    by_cases hc : hasCriticalIssue (agentDataOf siblings)
        || (missingDelivsOf (agentDataOf siblings) onDisk).length > 0
    · simp only [hc, if_true]
      constructor
      · intro _
        rcases Bool.or_eq_true_iff.mp hc with h | h
        · right
          rcases List.any_eq_true.mp h with ⟨t, ht, hcrit⟩
          exact ⟨t, ht, by simpa using hcrit⟩
        · left
          have hpos : (missingDelivsOf (agentDataOf siblings) onDisk) ≠ [] := by
            intro hnil
            rw [hnil] at h
            simp at h
          rcases List.exists_mem_of_ne_nil _ hpos with ⟨d, hd⟩
          have := List.mem_filter.mp hd
          exact ⟨d, this.1, by simpa using this.2⟩
      · intro _
        trivial
    · simp only [hc, if_false]
      constructor
      · intro hbad
        exact absurd hbad (by decide)
      · intro hex
        exfalso
        apply hc
        rcases hex with ⟨d, hd, hdf⟩ | ⟨t, ht, htc⟩
        · refine Bool.or_eq_true_iff.mpr (Or.inr ?_)
          have : d ∈ missingDelivsOf (agentDataOf siblings) onDisk :=
            List.mem_filter.mpr ⟨hd, by simp [hdf]⟩
          exact decide_eq_true (List.length_pos.mpr (List.ne_nil_of_mem this))
        · refine Bool.or_eq_true_iff.mpr (Or.inl ?_)
          exact List.any_eq_true.mpr ⟨t, ht, by simp [htc]⟩
  · rw [hstat conflicts]
    by_cases hc : hasCriticalIssue (agentDataOf siblings)
        || (missingDelivsOf (agentDataOf siblings) onDisk).length > 0
    · simp [hc]
    · simp [hc]
  · intro cf2
    rw [hstat conflicts, hstat cf2]

/-- All three sibling outputs present and empty. -/
def sibsComplete : String → Option AgentOutput := fun _ => some {}

/-- A concrete critical issue for witnesses. -/
def sampleCriticalIssue : CoordIssue :=
  { severity := "critical", description := "design broken" }

/-- All three sibling outputs present; the designer output carries one
critical issue. -/
def sibsCritical : String → Option AgentOutput := fun f =>
  if f = "designer-agent.json" then some { issues := [sampleCriticalIssue] }
  else some {}

/-- The backend sibling output is missing. -/
def sibsMissingBackend : String → Option AgentOutput := fun f =>
  if f = "backend-agent.json" then none else some {}

/-- Every file exists on disk. -/
def onDiskAll : String → Bool := fun _ => true

/-- Witness for C3: with all siblings readable and no issue, the status
is `success` even in the presence of a medium conflict; with a critical
issue it is `blocked`. -/
theorem claim_C3_blocked_iff_witness :
    (consolidate "S2" "demo-acme" sibsComplete onDiskAll [sampleConflict]).status
        = "success"
    ∧ (consolidate "S2" "demo-acme" sibsCritical onDiskAll []).status = "blocked" := by
  constructor
  · have h := claim_C3_blocked_iff "S2" "demo-acme" sibsComplete onDiskAll
      [sampleConflict] (by rfl)
    rcases h.2.1 with hb | hs
    · exfalso
      have := h.1.mp hb
      rcases this with ⟨d, hd, _⟩ | ⟨t, ht, _⟩
      · have : d ∈ ([] : List DelivEntry) := hd
        simp at this
      · have : t ∈ ([] : List TaggedIssue) := ht
        simp at this
    · exact hs
  · have h := claim_C3_blocked_iff "S2" "demo-acme" sibsCritical onDiskAll [] (by rfl)
    refine h.1.mpr (Or.inr ?_)
    refine ⟨{ agent := "designer-agent", issue := sampleCriticalIssue }, ?_, rfl⟩
    decide

/-- C5: if any expected sibling output file is absent or unreadable,
the consolidation short-circuits to `blocked` with exactly one
critical-severity issue naming the missing inputs, empty deliverables,
decisions and next steps, and a zeroed aggregate — no partial
aggregation of the readable siblings. -/
theorem claim_C5_missing_inputs (stage clientSlug : String)
    (siblings : String → Option AgentOutput) (onDisk : String → Bool)
    (conflicts : List Conflict)
    (hne : missingInputsOf siblings ≠ []) :
    consolidate stage clientSlug siblings onDisk conflicts
        = blockedInputsResult (missingInputsOf siblings)
    ∧ (consolidate stage clientSlug siblings onDisk conflicts).status = "blocked"
    ∧ (consolidate stage clientSlug siblings onDisk conflicts).result.issues
        = [ResultIssue.plain (mkMissingInputsIssue (missingInputsOf siblings))]
    ∧ (consolidate stage clientSlug siblings onDisk conflicts).result.issues.length = 1
    ∧ (mkMissingInputsIssue (missingInputsOf siblings)).severity = "critical"
    ∧ (mkMissingInputsIssue (missingInputsOf siblings)).missing_inputs
        = missingInputsOf siblings
    ∧ (consolidate stage clientSlug siblings onDisk conflicts).result.deliverables = []
    ∧ (consolidate stage clientSlug siblings onDisk conflicts).result.decisions = []
    ∧ (consolidate stage clientSlug siblings onDisk conflicts).result.next_steps = []
    ∧ (consolidate stage clientSlug siblings onDisk conflicts).result.consolidated
        = zeroConsolidated := by
  have hred : consolidate stage clientSlug siblings onDisk conflicts
      = blockedInputsResult (missingInputsOf siblings) := by
    unfold consolidate
    simp [List.length_pos.mpr hne]
  refine ⟨hred, ?_, ?_, ?_, rfl, rfl, ?_, ?_, ?_, ?_⟩ <;> rw [hred] <;> rfl

/-- Witness for C5: with the backend sibling missing, the result is the
short-circuit record whose single critical issue names
`backend-agent.json`. -/
theorem claim_C5_missing_inputs_witness :
    (consolidate "S2" "demo-acme" sibsMissingBackend onDiskAll []).status = "blocked"
    ∧ (consolidate "S2" "demo-acme" sibsMissingBackend onDiskAll []).result.issues
        = [ResultIssue.plain (mkMissingInputsIssue ["backend-agent.json"])]
    ∧ missingInputsOf sibsMissingBackend = ["backend-agent.json"] := by
  have h := claim_C5_missing_inputs "S2" "demo-acme" sibsMissingBackend onDiskAll []
    (by decide)
  have hm : missingInputsOf sibsMissingBackend = ["backend-agent.json"] := by decide
  refine ⟨h.2.1, ?_, hm⟩
  rw [h.2.2.1, hm]

/-! ## Artifact integrity check (`ArtifactChecker.checkArtifacts`,
lines 1841-1859, and the post-check in `Orchestrator.executeAgent`,
lines 2692-2720) -/

/-- Model of `path.join(outputDir, filename)` for the simple relative names the
orchestrator uses. -/
def pathJoin (dir filename : String) : String := dir ++ "/" ++ filename

/-- One entry of the `missing` list of `checkArtifacts`
(line 1850). -/
structure MissingArtifact where
  name : String
  filename : String
  expected_path : String
deriving DecidableEq, Repr

/-- The record returned by `checkArtifacts` (lines 1854-1858). -/
structure ArtifactCheck where
  valid : Bool
  missing : List MissingArtifact
  checked : Nat
deriving DecidableEq, Repr

/-- The `missing` accumulation loop of `checkArtifacts`
(lines 1842-1852): one entry per declared deliverable whose joined
path does not exist. -/
def artifactMissing (deliverables : List (String × String)) (onDisk : String → Bool)
    (outputDir : String) : List MissingArtifact :=
  deliverables.filterMap (fun p =>
    if onDisk (pathJoin outputDir p.2) then none
    else some { name := p.1, filename := p.2,
                expected_path := pathJoin outputDir p.2 })

/-- Model of `ArtifactChecker.checkArtifacts` (lines 1841-1859): a pure
existence check over the declared deliverable map, with `fs.access`
modelled by `onDisk` on the joined path. -/
def checkArtifacts (deliverables : List (String × String)) (onDisk : String → Bool)
    (outputDir : String) : ArtifactCheck :=
  { valid := (artifactMissing deliverables onDisk outputDir).length == 0
    missing := artifactMissing deliverables onDisk outputDir
    checked := deliverables.length }

/-- An issue on a task-executor result; the synthetic integrity issue
additionally carries `missing_artifacts`. -/
structure ExecIssue where
  severity : String := ""
  description : String := ""
  recommendation : Option String := none
  missing_artifacts : List MissingArtifact := []
deriving DecidableEq, Repr

/-- The `result` object of a task-executor output (as produced by
`executeAgentLogic`). -/
structure ExecResultData where
  summary : String := ""
  deliverables : List (String × String) := []
  decisions : List String := []
  issues : List ExecIssue := []
  next_steps : List String := []
deriving DecidableEq, Repr

/-- A task-executor result: status plus result data. -/
structure ExecResult where
  status : String
  result : ExecResultData
deriving DecidableEq, Repr

/-- The synthetic high-severity issue appended on missing artifacts
(lines 2708-2713). -/
def missingArtifactsIssue (missing : List MissingArtifact) : ExecIssue :=
  { severity := "high"
    description := "Missing " ++ toString missing.length ++ " artifact file(s)"
    recommendation := some "Ensure all deliverables are written to disk"
    missing_artifacts := missing }

/-- The integrity post-check of `Orchestrator.executeAgent`
(lines 2699-2719): when the check is invalid, append the synthetic
issue and downgrade a `success` status to `blocked`. -/
def applyArtifactCheck (r : ExecResult) (check : ArtifactCheck) : ExecResult :=
  if !check.valid then
    { status := if r.status = "success" then "blocked" else r.status
      result := { r.result with
        issues := r.result.issues ++ [missingArtifactsIssue check.missing] } }
  else r

/-- The artifact phase of `executeAgent` (lines 2692-2720): check the
declared deliverables, then apply the consequences. -/
def executeAgentArtifactPhase (r : ExecResult) (onDisk : String → Bool)
    (outputDir : String) : ExecResult :=
  applyArtifactCheck r (checkArtifacts r.result.deliverables onDisk outputDir)

/-- C4: whenever some declared deliverable file is absent, the executor
appends exactly one synthetic high-severity issue (describing the
missing files) to the result's issue list, downgrades a `success`
status to `blocked`, and leaves a `blocked` or `failed` (or any
non-`success`) status unchanged. -/
theorem claim_C4_integrity_downgrade (r : ExecResult) (onDisk : String → Bool)
    (outputDir : String)
    (hmiss : ∃ p ∈ r.result.deliverables, onDisk (pathJoin outputDir p.2) = false) :
    ((executeAgentArtifactPhase r onDisk outputDir).result.issues
        = r.result.issues
          ++ [missingArtifactsIssue
                (checkArtifacts r.result.deliverables onDisk outputDir).missing])
    ∧ ((missingArtifactsIssue
          (checkArtifacts r.result.deliverables onDisk outputDir).missing).severity
        = "high")
    ∧ ((executeAgentArtifactPhase r onDisk outputDir).result.issues.length
        = r.result.issues.length + 1)
    ∧ (r.status = "success" →
        (executeAgentArtifactPhase r onDisk outputDir).status = "blocked")
    ∧ (r.status ≠ "success" →
        (executeAgentArtifactPhase r onDisk outputDir).status = r.status)
    ∧ (executeAgentArtifactPhase r onDisk outputDir).result.deliverables
        = r.result.deliverables := by
  have hinvalid : (checkArtifacts r.result.deliverables onDisk outputDir).valid = false := by
    rcases hmiss with ⟨p, hp, hpd⟩
    have hmem : MissingArtifact.mk p.1 p.2 (pathJoin outputDir p.2)
        ∈ artifactMissing r.result.deliverables onDisk outputDir := by
      unfold artifactMissing
      apply List.mem_filterMap.mpr
      refine ⟨p, hp, ?_⟩
      rw [hpd]
      simp
    have hlen : (artifactMissing r.result.deliverables onDisk outputDir).length ≠ 0 := by
      intro h0
      exact (List.ne_nil_of_mem hmem) (List.length_eq_zero.mp h0)
    show ((artifactMissing r.result.deliverables onDisk outputDir).length == 0) = false
    simp [hlen]
  have hred : executeAgentArtifactPhase r onDisk outputDir
      = { status := if r.status = "success" then "blocked" else r.status
          result := { r.result with
            issues := r.result.issues
              ++ [missingArtifactsIssue
                    (checkArtifacts r.result.deliverables onDisk outputDir).missing] } } := by
    unfold executeAgentArtifactPhase applyArtifactCheck
    rw [hinvalid]
    rfl
  refine ⟨?_, rfl, ?_, ?_, ?_, ?_⟩
  · rw [hred]
  · rw [hred]
    simp
  · intro h
    rw [hred]
    simp [h]
  · intro h
    rw [hred]
    simp [h]
  · rw [hred]

/-- A concrete executor result for the C4 witness: a successful run
declaring one artifact that is never written to disk. -/
def sampleExecResult : ExecResult :=
  { status := "success"
    result := { summary := "API design"
                deliverables := [("api_spec", "api-spec.md")] } }

/-- No file exists on disk. -/
def onDiskNone : String → Bool := fun _ => false

/-- Witness for C4: the concrete successful result with an unwritten
deliverable is downgraded to `blocked` and gains exactly one issue. -/
theorem claim_C4_integrity_downgrade_witness :
    (executeAgentArtifactPhase sampleExecResult onDiskNone "outputs/demo-acme/S2").status
        = "blocked"
    ∧ (executeAgentArtifactPhase sampleExecResult onDiskNone
        "outputs/demo-acme/S2").result.issues.length = 1 := by
  have h := claim_C4_integrity_downgrade sampleExecResult onDiskNone "outputs/demo-acme/S2"
    ⟨("api_spec", "api-spec.md"), by decide, rfl⟩
  exact ⟨h.2.2.2.1 rfl, h.2.2.1⟩

/-! ## Stage result aggregation (`Orchestrator.consolidateResults`,
lines 3386-3407) -/

/-- The slice of a per-agent result that `consolidateResults` reads:
`r.status`, `r.agent` and `r.result.summary`. -/
structure StageAgentResult where
  agent : String
  status : String
  resultSummary : String
deriving DecidableEq, Repr

/-- One entry of the `agents` list of the consolidated stage result
(lines 3399-3403). -/
structure StageAgentEntry where
  name : String
  status : String
  summary : String
deriving DecidableEq, Repr

/-- The consolidated stage result (lines 3395-3406); the wall-clock
`timestamp` field is omitted. -/
structure StageConsolidated where
  stage : String
  client : String
  status : String
  agents : List StageAgentEntry
  summary : String
deriving DecidableEq, Repr

/-- Model of `Orchestrator.consolidateResults` (lines 3386-3407): `blocked`
wins, then `failed`, else `success`. -/
def consolidateResults (results : List StageAgentResult) (stage clientSlug : String) :
    StageConsolidated :=
  { stage := stage
    client := clientSlug
    status :=
      if results.any (fun r => r.status == "blocked") then "blocked"
      else if results.any (fun r => r.status == "failed") then "failed"
      else "success"
    agents := results.map (fun r =>
      { name := r.agent, status := r.status, summary := r.resultSummary })
    summary := "Stage " ++ stage ++ " "
      ++ (if results.any (fun r => r.status == "blocked") then "blocked"
          else if results.any (fun r => r.status == "failed") then "failed"
          else "success") }

/-- C7: for every non-empty result list, the aggregate status is
`blocked` iff some result is blocked; `failed` iff no result is blocked
and some result is failed; and `success` iff no result is blocked or
failed. -/
theorem claim_C7_status_precedence (results : List StageAgentResult)
    (stage clientSlug : String) (_hne : results ≠ []) :
    ((consolidateResults results stage clientSlug).status = "blocked"
       ↔ ∃ r ∈ results, r.status = "blocked")
    ∧ ((consolidateResults results stage clientSlug).status = "failed"
       ↔ (¬(∃ r ∈ results, r.status = "blocked") ∧ ∃ r ∈ results, r.status = "failed"))
    ∧ ((consolidateResults results stage clientSlug).status = "success"
       ↔ (¬(∃ r ∈ results, r.status = "blocked")
            ∧ ¬(∃ r ∈ results, r.status = "failed"))) := by
  have hb : results.any (fun r => r.status == "blocked") = true
      ↔ ∃ r ∈ results, r.status = "blocked" := by
    rw [List.any_eq_true]
    constructor
    · rintro ⟨r, hr, h⟩
      exact ⟨r, hr, by simpa using h⟩
    · rintro ⟨r, hr, h⟩
      exact ⟨r, hr, by simp [h]⟩
  have hf : results.any (fun r => r.status == "failed") = true
      ↔ ∃ r ∈ results, r.status = "failed" := by
    rw [List.any_eq_true]
    constructor
    · rintro ⟨r, hr, h⟩
      exact ⟨r, hr, by simpa using h⟩
    · rintro ⟨r, hr, h⟩
      exact ⟨r, hr, by simp [h]⟩
  by_cases h1 : results.any (fun r => r.status == "blocked")
  · have hst : (consolidateResults results stage clientSlug).status = "blocked" := by
      simp [consolidateResults, h1]
    rw [hst]
    refine ⟨⟨fun _ => hb.mp h1, fun _ => rfl⟩, ?_, ?_⟩
    · constructor
      · intro h
        exact absurd h (by decide)
      · rintro ⟨hnb, _⟩
        exact absurd (hb.mp h1) hnb
    · constructor
      · intro h
        exact absurd h (by decide)
      · rintro ⟨hnb, _⟩
        exact absurd (hb.mp h1) hnb
  · have hnb : ¬∃ r ∈ results, r.status = "blocked" := fun h =>
      h1 (hb.mpr h)
    by_cases h2 : results.any (fun r => r.status == "failed")
    · have hst : (consolidateResults results stage clientSlug).status = "failed" := by
        simp [consolidateResults, h1, h2]
      rw [hst]
      refine ⟨?_, ?_, ?_⟩
      · constructor
        · intro h
          exact absurd h (by decide)
        · intro h
          exact absurd h hnb
      · exact ⟨fun _ => ⟨hnb, hf.mp h2⟩, fun _ => rfl⟩
      · constructor
        · intro h
          exact absurd h (by decide)
        · rintro ⟨_, hnf2⟩
          exact absurd (hf.mp h2) hnf2
    · have hnf : ¬∃ r ∈ results, r.status = "failed" := fun h =>
        h2 (hf.mpr h)
      have hst : (consolidateResults results stage clientSlug).status = "success" := by
        simp [consolidateResults, h1, h2]
      rw [hst]
      refine ⟨?_, ?_, ?_⟩
      · constructor
        · intro h
          exact absurd h (by decide)
        · intro h
          exact absurd h hnb
      · constructor
        · intro h
          exact absurd h (by decide)
        · rintro ⟨_, hff⟩
          exact absurd hff hnf
      · exact ⟨fun _ => ⟨hnb, hnf⟩, fun _ => rfl⟩

/-- Concrete per-agent results for the C7 witness. -/
def sampleResults : List StageAgentResult :=
  [{ agent := "designer-agent", status := "success", resultSummary := "ok" },
   { agent := "frontend-agent", status := "blocked", resultSummary := "stuck" },
   { agent := "backend-agent", status := "failed", resultSummary := "boom" }]

/-- Witness for C7: with one blocked and one failed sibling, the
aggregate is `blocked`. -/
theorem claim_C7_status_precedence_witness :
    (consolidateResults sampleResults "S2" "demo-acme").status = "blocked" := by
  have h := claim_C7_status_precedence sampleResults "S2" "demo-acme" (by decide)
  refine h.1.mpr ?_
  refine ⟨{ agent := "frontend-agent", status := "blocked", resultSummary := "stuck" },
    ?_, rfl⟩
  decide

/-! ## Top-level driver control flow (`Orchestrator.executeStage`,
lines 2066-2212, and `main`, lines 3447-3478)

The driver flow is modelled around its four decision points: the gate
check, the budget check, agent availability, and the executor phase
(which either returns a consolidated status or raises).  The second
component of the result records whether a run-manifest write was
attempted on that path (`writeBlockedRunManifest` at lines 2100 and
2145, `generateRunManifest` at line 2201). -/

/-- Outcome of the executor phase of a stage: every agent completed
with a consolidated status, or some executor raised. -/
inductive ExecOutcome where
  | ok (consolidatedStatus : String)
  | raised (msg : String)
deriving DecidableEq, Repr

/-- Model of the `Orchestrator.executeStage` control flow: result (or propagated
error) paired with whether a manifest write was attempted.  Gate denial
and budget denial write a blocked manifest and return; a stage with no
agents returns `failed` without a manifest; an executor error
propagates out of `executeStage` before any manifest write; a completed
execution writes the run manifest. -/
def executeStageFlow (gatePassed withinBudget agentsAvailable : Bool)
    (exec : ExecOutcome) : Except String String × Bool :=
  if !gatePassed then (Except.ok "blocked", true)
  else if !withinBudget then (Except.ok "blocked", true)
  else if !agentsAvailable then (Except.ok "failed", false)
  else
    match exec with
    | .raised m => (Except.error m, false)
    | .ok st => (Except.ok st, true)

/-- Model of `main` (lines 3461-3478): await `executeStage` inside
`try`/`catch`; a thrown error is logged and the process exits `1`; a
returned result exits `0` exactly when its status is `success`.  The
Boolean records whether any manifest write was attempted during the
run. -/
def mainFlow (gatePassed withinBudget agentsAvailable : Bool)
    (exec : ExecOutcome) : Nat × Bool :=
  match executeStageFlow gatePassed withinBudget agentsAvailable exec with
  | (Except.error _, w) => (1, w)
  | (Except.ok st, w) => ((if st = "success" then 0 else 1), w)

/-- C8 counterexample: when gates and budget pass, agents are available
and a task executor raises, the driver exits non-zero but attempts no
run-manifest write — refuting the claim that a best-effort manifest
write is attempted on this path. -/
theorem claim_C8_counterexample :
    (mainFlow true true true (ExecOutcome.raised "boom")).1 = 1
    ∧ (mainFlow true true true (ExecOutcome.raised "boom")).2 = false := by
  constructor
  · rfl
  · rfl

/-- C8 (amended): an unexpected executor error propagates out of
`executeStage` to the top-level driver, and the process exits non-zero
— but no run manifest is written on that path; manifest writes happen
only for gate/budget denials and for executions that run to
completion. -/
theorem claim_C8_error_path (m : String) :
    ((executeStageFlow true true true (ExecOutcome.raised m)).1 = Except.error m)
    ∧ (mainFlow true true true (ExecOutcome.raised m) = (1, false))
    ∧ (∀ gatePassed withinBudget agentsAvailable exec,
        (executeStageFlow gatePassed withinBudget agentsAvailable exec).2 = true
          ↔ (gatePassed = false ∨ withinBudget = false
              ∨ (agentsAvailable = true
                  ∧ ∃ st, exec = ExecOutcome.ok st))) := by
  refine ⟨rfl, rfl, ?_⟩
  intro g b a exec
  cases g
  · simp [executeStageFlow]
  · cases b
    · simp [executeStageFlow]
    · cases a
      · simp [executeStageFlow]
      · cases exec with
        | ok st => simp [executeStageFlow]
        | raised msg => simp [executeStageFlow]

/-- Witness for the amended C8 at a concrete error message. -/
theorem claim_C8_error_path_witness :
    mainFlow true true true (ExecOutcome.raised "ENOENT: no such file") = (1, false) :=
  (claim_C8_error_path "ENOENT: no such file").2.1

end Puiux
